import Mathlib

/-!
Verification of the Web-Scraper fetch/extraction core against its
specification.  Each Python function under `src/` that the claims touch is
shallowly embedded as an executable Lean definition; randomness and network
behaviour are passed in explicitly as function parameters.
-/

namespace WebScraper

/-! ### Embedding of `src/core/comparator.py` (`ProductComparator`)

Python values flowing through the normalizers are modelled by `PyVal`.
`num` covers both Python `int` and `float` (the code treats them alike via
`isinstance(x, (int, float))`); Python `bool` is a subclass of `int`, so the
numeric branches of the normalizers accept it with value 0 or 1. -/

inductive PyVal where
  | none
  | bool (b : Bool)
  | num (q : ℚ)
  | str (s : String)
deriving DecidableEq

/-- Decimal digits of the fractional part `numr / den` (`numr < den`),
produced with a fuel bound; used only to model Python `str()` of a number. -/
def fracDigits : ℕ → ℕ → ℕ → List Char
  | 0, _, _ => []
  | _ + 1, 0, _ => []
  | fuel + 1, numr, den =>
    Char.ofNat (48 + numr * 10 / den) :: fracDigits fuel (numr * 10 % den) den

/-- Python `str()` of a number, modelled as the exact decimal expansion of
the rational (Python floats are dyadic, so their expansion is finite). -/
def ratRepr (q : ℚ) : String :=
  let sign := if q < 0 then "-" else ""
  let n := q.num.natAbs
  let d := q.den
  let fr := fracDigits 64 (n % d) d
  if fr = [] then sign ++ toString (n / d)
  else sign ++ toString (n / d) ++ "." ++ String.mk fr

/-- Python `str()` on the embedded value domain. -/
def pyStr : PyVal → String
  | .none => "None"
  | .bool true => "True"
  | .bool false => "False"
  | .num q => ratRepr q
  | .str s => s

/-- Python truthiness test `not x` on the embedded value domain. -/
def isFalsy : PyVal → Bool
  | .none => true
  | .bool b => !b
  | .num q => q == 0
  | .str s => s == ""

/-- `re.sub(r'[^\d.]', '', s)`: keep only digits and dots
(comparator.py line 69). -/
def stripNonDigitDot (cs : List Char) : List Char :=
  cs.filter (fun c => c.isDigit || c == '.')

/-- Numeric value of a list of decimal digit characters (base 10). -/
def natOfDigits (ds : List Char) : ℕ :=
  ds.foldl (fun a c => 10 * a + (c.toNat - 48)) 0

/-- Python `float()` restricted to unsigned digits-and-dots strings: succeeds
iff the string is digits with at most one dot and at least one digit
(so "", ".", "..", "1.2.3" raise ValueError, while "5.", ".5", "1.25" parse). -/
def pyFloatOfDigitsDots (s : List Char) : Option ℚ :=
  let ip := s.takeWhile Char.isDigit
  let rest := s.drop ip.length
  match rest with
  | [] => if ip = [] then Option.none else some (natOfDigits ip)
  | '.' :: frac =>
    if frac.all Char.isDigit ∧ (ip ≠ [] ∨ frac ≠ []) then
      some ((natOfDigits ip : ℚ) + (natOfDigits frac : ℚ) / (10 : ℚ) ^ frac.length)
    else Option.none
  | _ => Option.none

/-- `ProductComparator._normalize_price` (comparator.py lines 58-75):
`None` passes through, numbers become floats, strings are stripped of
non-digit non-dot characters and parsed, with parse failure yielding `None`. -/
def normalize_price : PyVal → Option ℚ
  | .none => Option.none
  | .bool b => some (if b then 1 else 0)
  | .num q => some q
  | .str s => pyFloatOfDigitsDots (stripNonDigitDot s.toList)

/-- The greedy match of `\d+\.?\d*` starting at a digit position
(comparator.py line 109). -/
def matchNumAt (s : List Char) : List Char :=
  let ds := s.takeWhile Char.isDigit
  match s.drop ds.length with
  | '.' :: more => ds ++ '.' :: more.takeWhile Char.isDigit
  | _ => ds

/-- `re.search(r'(\d+\.?\d*)', s)`: the leftmost match of the rating regex. -/
def firstNumberMatch : List Char → Option (List Char)
  | [] => Option.none
  | c :: cs => if c.isDigit then some (matchNumAt (c :: cs)) else firstNumberMatch cs

/-- The first decimal number the rating regex finds in a string, as a rational. -/
def firstNumber (s : String) : Option ℚ :=
  (firstNumberMatch s.toList).bind pyFloatOfDigitsDots

/-- `ProductComparator._normalize_rating` (comparator.py lines 96-120):
numbers above 5 are divided by 10, others pass through; strings contribute
the first decimal number the regex finds, under the same rule. -/
def normalize_rating : PyVal → Option ℚ
  | .none => Option.none
  | .bool b => some (if b then (1 : ℚ) else 0)
  | .num q => if 5 < q then some (q / 10) else some q
  | .str s =>
    match firstNumber s with
    | some v => some (if 5 < v then v / 10 else v)
    | Option.none => Option.none

/-- Whitespace-collapsing pass of `re.sub(r'\s+', ' ', s)`; the flag records
whether the previous character was whitespace. -/
def collapseWSAux : List Char → Bool → List Char
  | [], _ => []
  | c :: rest, prevWS =>
    if c.isWhitespace then
      if prevWS then collapseWSAux rest true else ' ' :: collapseWSAux rest true
    else c :: collapseWSAux rest false

/-- `re.sub(r'\s+', ' ', s)`: collapse whitespace runs to single spaces. -/
def collapseWS (cs : List Char) : List Char := collapseWSAux cs false

/-- Python `str.strip()`: drop leading and trailing whitespace. -/
def pyStrip (cs : List Char) : List Char :=
  ((cs.dropWhile Char.isWhitespace).reverse.dropWhile Char.isWhitespace).reverse

/-- Python `str.title()` for ASCII text: an alphabetic character is uppercased
after a non-alphabetic character and lowercased otherwise. -/
def pyTitleAux : List Char → Bool → List Char
  | [], _ => []
  | c :: rest, startOfWord =>
    if c.isAlpha then
      (if startOfWord then c.toUpper else c.toLower) :: pyTitleAux rest false
    else c :: pyTitleAux rest true

/-- `ProductComparator._normalize_title` (comparator.py lines 77-86). -/
def normalize_title (v : PyVal) : String :=
  if isFalsy v then "" else String.mk (collapseWS (pyStrip (pyStr v).toList))

/-- `ProductComparator._normalize_brand` (comparator.py lines 88-94). -/
def normalize_brand (v : PyVal) : String :=
  if isFalsy v then "" else String.mk (pyTitleAux (pyStrip (pyStr v).toList) true)

/-- Python substring test `pat in s`. -/
def strContains (s pat : String) : Bool :=
  (List.range (s.toList.length + 1)).any
    (fun i => (s.toList.drop i).take pat.toList.length == pat.toList)

/-- The positive indicators of comparator.py line 133, in source order. -/
def positive_indicators : List String := ["in stock", "available", "yes", "true", "1"]

/-- The negative indicators of comparator.py line 134, in source order. -/
def negative_indicators : List String :=
  ["out of stock", "unavailable", "no", "false", "0", "sold out"]

/-- The indicator scan of comparator.py lines 136-144: positive indicators are
checked first, then negative ones, then a default of `False`. -/
def availability_scan (s : String) : Bool :=
  if positive_indicators.any (fun p => strContains s p) then true
  else if negative_indicators.any (fun p => strContains s p) then false
  else false

/-- Python `str.lower()` for ASCII text, character by character. -/
def strLower (s : String) : String := String.mk (s.toList.map Char.toLower)

/-- `ProductComparator._normalize_availability` (comparator.py lines 122-144):
`None` is `False`, booleans pass through, anything else is stringified,
lowercased, and scanned for indicators. -/
def normalize_availability : PyVal → Bool
  | .none => false
  | .bool b => b
  | v => availability_scan (strLower (pyStr v))

/-- Lookup in a Python dict modelled as an insertion-ordered association list. -/
def dget (d : List (String × PyVal)) (k : String) : Option PyVal :=
  (d.find? (fun p => p.1 == k)).map Prod.snd

/-- Python `k in d` on the association-list dict model. -/
def dmem (d : List (String × PyVal)) (k : String) : Bool :=
  d.any (fun p => p.1 == k)

/-- Python `d[k] = v`: replace in place if present, else append. -/
def dset (d : List (String × PyVal)) (k : String) (v : PyVal) : List (String × PyVal) :=
  if dmem d k then d.map (fun p => if p.1 == k then (k, v) else p) else d ++ [(k, v)]

/-- The `normalization_rules` table of comparator.py lines 19-25, with every
normalizer result re-injected into the Python value domain. -/
def normalization_rules : List (String × (PyVal → PyVal)) :=
  [("price", fun v => match normalize_price v with
      | some q => .num q
      | Option.none => .none),
   ("title", fun v => .str (normalize_title v)),
   ("brand", fun v => .str (normalize_brand v)),
   ("rating", fun v => match normalize_rating v with
      | some q => .num q
      | Option.none => .none),
   ("availability", fun v => .bool (normalize_availability v))]

/-- `ProductComparator.normalize_product` (comparator.py lines 27-56); the
`datetime.now().isoformat()` timestamp is passed in as `now`.  A field present
in the raw product is normalized; an absent field is set to Python `None`
directly, without consulting its normalizer.  Remaining raw fields are copied
when their key is not already present. -/
def normalize_product (product : List (String × PyVal)) (source : String)
    (now : String) : List (String × PyVal) :=
  let base : List (String × PyVal) :=
    [("source", .str source), ("url", (dget product "url").getD (.str "")),
     ("scraped_at", .str now)]
  let withRules := normalization_rules.foldl
    (fun acc fr =>
      match dget product fr.1 with
      | some v => dset acc fr.1 (fr.2 v)
      | Option.none => dset acc fr.1 .none) base
  product.foldl (fun acc kv => if dmem acc kv.1 then acc else dset acc kv.1 kv.2) withRules

/-! ### Embedding of `src/core/plugins.py` (`PluginManager`)

The `extract` body of an extractor is irrelevant to dispatch, so an extractor
is modelled by its name and its `can_handle` URL predicate. -/

structure Extractor where
  name : String
  can_handle : String → Bool

structure PluginManager where
  extractors : List Extractor

/-- `PluginManager.register_extractor` (plugins.py lines 70-81): appends to the
ordered extractor list (the `isinstance` guard is enforced by typing here). -/
def register_extractor (pm : PluginManager) (e : Extractor) : PluginManager :=
  { pm with extractors := pm.extractors ++ [e] }

/-- `PluginManager.get_extractor_for_url` (plugins.py lines 120-133): scan the
registered extractors in order and return the first whose predicate accepts
the URL, or `None`. -/
def get_extractor_for_url (pm : PluginManager) (url : String) : Option Extractor :=
  pm.extractors.find? (fun e => e.can_handle url)

/-! ### Embedding of `src/core/anti_block.py` (`AntiBlockEngine`)

`random.choice` and `random.uniform` are modelled by passing the drawn value
in explicitly: a call sequence is indexed by a pick stream `ℕ → Fin 6`. -/

/-- The static `USER_AGENTS` pool of anti_block.py lines 15-22, in order. -/
def USER_AGENTS : List String :=
  ["Mozilla/5.0 (Windows NT 10.0; Win64; x64) AppleWebKit/537.36 (KHTML, like Gecko) Chrome/120.0.0.0 Safari/537.36",
   "Mozilla/5.0 (Windows NT 10.0; Win64; x64) AppleWebKit/537.36 (KHTML, like Gecko) Chrome/119.0.0.0 Safari/537.36",
   "Mozilla/5.0 (Macintosh; Intel Mac OS X 10_15_7) AppleWebKit/537.36 (KHTML, like Gecko) Chrome/120.0.0.0 Safari/537.36",
   "Mozilla/5.0 (Windows NT 10.0; Win64; x64; rv:121.0) Gecko/20100101 Firefox/121.0",
   "Mozilla/5.0 (Macintosh; Intel Mac OS X 10_15_7) AppleWebKit/605.1.15 (KHTML, like Gecko) Version/17.1 Safari/605.1.15",
   "Mozilla/5.0 (X11; Linux x86_64) AppleWebKit/537.36 (KHTML, like Gecko) Chrome/120.0.0.0 Safari/537.36"]

/-- `AntiBlockEngine.get_headers` (anti_block.py lines 37-54): the user-agent
is `random.choice(USER_AGENTS)` when rotation is enabled (the draw is the
explicit `pick` argument) and the pinned `USER_AGENTS[0]` otherwise; the other
header entries are fixed. -/
def get_headers (enable_rotation : Bool) (pick : Fin USER_AGENTS.length) :
    List (String × String) :=
  let user_agent :=
    if enable_rotation then USER_AGENTS.get pick else USER_AGENTS.get ⟨0, by decide⟩
  [("User-Agent", user_agent),
   ("Accept", "text/html,application/xhtml+xml,application/xml;q=0.9,image/webp,*/*;q=0.8"),
   ("Accept-Language", "en-US,en;q=0.5"),
   ("Accept-Encoding", "gzip, deflate, br"),
   ("Connection", "keep-alive"),
   ("Upgrade-Insecure-Requests", "1"),
   ("Sec-Fetch-Dest", "document"),
   ("Sec-Fetch-Mode", "navigate"),
   ("Sec-Fetch-Site", "none"),
   ("Cache-Control", "max-age=0")]

/-- Lookup in a string-valued header dict (association list). -/
def hget (d : List (String × String)) (k : String) : Option String :=
  (d.find? (fun p => p.1 == k)).map Prod.snd

/-- Python `k in d` for a header dict. -/
def hmem (d : List (String × String)) (k : String) : Bool :=
  d.any (fun p => p.1 == k)

/-- Python `d[k] = v` for a header dict: replace in place or append. -/
def hset (d : List (String × String)) (k v : String) : List (String × String) :=
  if hmem d k then d.map (fun p => if p.1 == k then (k, v) else p) else d ++ [(k, v)]

/-- Python `d.update(other)` for header dicts (scraper.py line 51). -/
def hupdate (d other : List (String × String)) : List (String × String) :=
  other.foldl (fun acc kv => hset acc kv.1 kv.2) d

/-- Expected value of the backoff delay drawn by
`AntiBlockEngine.wait_before_retry` (anti_block.py line 75), up to the
constant mean of the uniform jitter: `base_delay * 2 ^ attempt`. -/
def backoffDelay (base_delay : ℚ) (attempt : ℕ) : ℚ := base_delay * 2 ^ attempt

/-! ### Embedding of `src/core/scraper.py` (`UniversalScraper`)

Network and browser behaviour is supplied as an explicit world: for each
outer attempt index, the response the HTTP session would produce, the response
the cloudscraper session would produce, and the HTML the browser would
produce (each possibly an exception). -/

/-- An HTTP response as seen by `requests` / `cloudscraper`. -/
structure Response where
  text : String
  status_code : ℕ
  headers : List (String × String)
  url : String
deriving DecidableEq

/-- The Python exceptions that can cross the scraper code. -/
inductive FetchErr where
  | httpStatus (code : ℕ)
  | netError (msg : String)
  | browserError (msg : String)
  | browserUnavailable
  | allMethodsFailed
  | valueError (method : String)
  | exhausted (url : String) (retries : ℕ)
deriving DecidableEq

/-- The result dict built by the `_scrape_*` tier methods. -/
structure FetchResult where
  html : String
  status_code : ℕ
  method_used : String
  headers : List (String × String)
  url : String
deriving DecidableEq

instance {ε α : Type} [DecidableEq ε] [DecidableEq α] : DecidableEq (Except ε α) :=
  fun x y =>
  match x, y with
  | .ok a, .ok b =>
    if h : a = b then isTrue (by rw [h]) else isFalse (fun hc => h (Except.ok.inj hc))
  | .error a, .error b =>
    if h : a = b then isTrue (by rw [h]) else isFalse (fun hc => h (Except.error.inj hc))
  | .ok _, .error _ => isFalse (fun hc => Except.noConfusion hc)
  | .error _, .ok _ => isFalse (fun hc => Except.noConfusion hc)

/-- Per-attempt external behaviour of the three tiers. -/
structure TierWorld where
  req : ℕ → Except FetchErr Response
  cs : ℕ → Except FetchErr Response
  br : ℕ → Except FetchErr String

inductive TierName where
  | requests
  | cloudscraper
  | browser
deriving DecidableEq

/-- The `method_used` string each tier writes into its result dict. -/
def tierTag : TierName → String
  | .requests => "requests"
  | .cloudscraper => "cloudscraper"
  | .browser => "browser"

/-- `response.raise_for_status()`: raises `HTTPError` for 4xx and 5xx codes. -/
def raise_for_status (r : Response) : Except FetchErr Response :=
  if 400 ≤ r.status_code ∧ r.status_code < 600 then .error (.httpStatus r.status_code)
  else .ok r

/-- `UniversalScraper._scrape_requests` (scraper.py lines 97-108): performs the
GET (outcome `w a`), raises for status, and reports the response text, the
real response status code, the real response headers and the final response
URL, tagged "requests".  Exceptions propagate. -/
def scrape_requests_tier (w : ℕ → Except FetchErr Response) (a : ℕ) :
    Except FetchErr FetchResult :=
  match w a with
  | .error e => .error e
  | .ok response =>
    match raise_for_status response with
    | .error e => .error e
    | .ok response =>
      .ok { html := response.text, status_code := response.status_code,
            method_used := "requests", headers := response.headers, url := response.url }

/-- `UniversalScraper._scrape_cloudscraper` (scraper.py lines 110-121): same
shape as the requests tier, tagged "cloudscraper". -/
def scrape_cloudscraper_tier (w : ℕ → Except FetchErr Response) (a : ℕ) :
    Except FetchErr FetchResult :=
  match w a with
  | .error e => .error e
  | .ok response =>
    match raise_for_status response with
    | .error e => .error e
    | .ok response =>
      .ok { html := response.text, status_code := response.status_code,
            method_used := "cloudscraper", headers := response.headers, url := response.url }

/-- `UniversalScraper._scrape_browser` (scraper.py lines 123-136): requires the
browser manager, takes the HTML the browser produced, and reports a hard-coded
status 200, the request headers that were sent, and the requested URL. -/
def scrape_browser_tier (hasBrowser : Bool) (w : ℕ → Except FetchErr String)
    (url : String) (headers : List (String × String)) (a : ℕ) :
    Except FetchErr FetchResult :=
  if hasBrowser then
    match w a with
    | .error e => .error e
    | .ok html =>
      .ok { html := html, status_code := 200, method_used := "browser",
            headers := headers, url := url }
  else .error .browserUnavailable

/-- `UniversalScraper._scrape_auto` (scraper.py lines 77-95): requests first,
then cloudscraper, then the browser when available; alongside the result it
returns the list of tiers actually invoked, in invocation order. -/
def scrape_auto (W : TierWorld) (hasBrowser : Bool) (url : String)
    (headers : List (String × String)) (a : ℕ) :
    Except FetchErr FetchResult × List TierName :=
  match scrape_requests_tier W.req a with
  | .ok r => (.ok r, [.requests])
  | .error _ =>
    match scrape_cloudscraper_tier W.cs a with
    | .ok r => (.ok r, [.requests, .cloudscraper])
    | .error _ =>
      if hasBrowser then
        (scrape_browser_tier hasBrowser W.br url headers a,
         [.requests, .cloudscraper, .browser])
      else (.error .allMethodsFailed, [.requests, .cloudscraper])

inductive Method where
  | auto
  | requests
  | cloudscraper
  | browser
  | other (s : String)

/-- The dispatch inside the `try` of `UniversalScraper.scrape`
(scraper.py lines 55-64), with the tiers it invokes; an unknown method raises
`ValueError` inside the `try`, so it is caught like any tier failure. -/
def tier_body (m : Method) (W : TierWorld) (hasBrowser : Bool) (url : String)
    (headers : List (String × String)) (a : ℕ) :
    Except FetchErr FetchResult × List TierName :=
  match m with
  | .auto => scrape_auto W hasBrowser url headers a
  | .requests => (scrape_requests_tier W.req a, [.requests])
  | .cloudscraper => (scrape_cloudscraper_tier W.cs a, [.cloudscraper])
  | .browser => (scrape_browser_tier hasBrowser W.br url headers a, [.browser])
  | .other s => (.error (.valueError s), [])

/-- The retry loop of `UniversalScraper.scrape` (scraper.py lines 53-75),
returning the surfaced outcome, the accumulated tier-invocation trace, and
the list of attempt indices passed to `wait_before_retry`.  On a failed final
attempt the caught exception is re-raised as is (line 72); on a failed
non-final attempt the engine sleeps with the current attempt index (line 73)
and the loop continues.  A retry budget of zero falls through to line 75. -/
def scrape_go (body : ℕ → Except FetchErr FetchResult × List TierName)
    (url : String) (retries : ℕ) (a : ℕ) :
    ℕ → Except FetchErr FetchResult × List TierName × List ℕ
  | 0 => (.error (.exhausted url retries), [], [])
  | remaining + 1 =>
    match body a with
    | (.ok r, tr) => (.ok r, tr, [])
    | (.error e, tr) =>
      match remaining with
      | 0 => (.error e, tr, [])
      | _ + 1 =>
        let rest := scrape_go body url retries (a + 1) remaining
        (rest.1, tr ++ rest.2.1, a :: rest.2.2)

/-- The full retry loop: run `scrape_go` from attempt 0 with the whole budget. -/
def scrape_loop (body : ℕ → Except FetchErr FetchResult × List TierName)
    (url : String) (retries : ℕ) :
    Except FetchErr FetchResult × List TierName × List ℕ :=
  scrape_go body url retries 0 retries

/-- `UniversalScraper.scrape` (scraper.py lines 27-75): merges the caller
headers with the anti-block headers (line 51), then runs the retry loop over
the method dispatch. -/
def scrape (W : TierWorld) (hasBrowser : Bool) (url : String) (m : Method)
    (headers antiHeaders : List (String × String)) (retries : ℕ) :
    Except FetchErr FetchResult × List TierName × List ℕ :=
  scrape_loop (tier_body m W hasBrowser url (hupdate headers antiHeaders)) url retries

/-! ### Embedding of `src/core/browser.py` (`BrowserManager._auto_scroll`)

The page is modelled by its scroll-height measurement sequence `h`: `h 0` is
the initial measurement (line 142) and `h i` for `i ≥ 1` is the measurement
taken inside loop iteration `i` (line 150).  The loop itself is unbounded in
the source; it is embedded with an explicit fuel so that termination becomes a
theorem (the result is independent of any sufficiently large fuel). -/

/-- The `while True` loop of `_auto_scroll` (browser.py lines 144-154): scroll
to the bottom, remeasure, stop when the new height equals the previous one.
Returns the index of the loop iteration that broke out, or `none` when the
fuel runs out. -/
def auto_scroll_loop (h : ℕ → ℕ) : ℕ → ℕ → ℕ → Option ℕ
  | _, _, 0 => Option.none
  | last, i, fuel + 1 =>
    if h i = last then some i else auto_scroll_loop h (h i) (i + 1) fuel

/-- `BrowserManager._auto_scroll` (browser.py lines 140-158): run the scroll
loop starting from the initial measurement, then scroll back to the top.
Returns the number of scroll-and-remeasure iterations performed and the final
scroll position (0 = top of page, from line 157). -/
def auto_scroll (h : ℕ → ℕ) (fuel : ℕ) : Option (ℕ × ℕ) :=
  (auto_scroll_loop h (h 0) 1 fuel).map (fun iters => (iters, 0))

/-! ### Statement abbreviations for the claims

Each `...Claim` definition spells out the property a claim asserts, so that
the claim theorem can be applied at concrete inputs without restating the
whole conjunction. -/

/-- The amended content of claim C4 at a numeric rating `q`. -/
def ratingClaim (q : ℚ) : Prop :=
  normalize_rating (.num q) = some (if 5 < q then q / 10 else q)
  ∧ (q ≤ 50 → 0 ≤ (if 5 < q then q / 10 else q) ∧ (if 5 < q then q / 10 else q) ≤ 5)
  ∧ (∀ s v, firstNumber s = some v →
      normalize_rating (.str s) = some (if 5 < v then v / 10 else v))
  ∧ normalize_rating .none = Option.none

/-- The content of claim C7 about price normalization. -/
def priceClaim : Prop :=
  normalize_price (.str "$1,299.99") = some (1299.99 : ℚ)
  ∧ (∀ s : String, (∀ c ∈ s.toList, c.isDigit = false) →
      normalize_price (.str s) = Option.none)
  ∧ (∀ q : ℚ, normalize_price (.num q) = some q)
  ∧ normalize_price .none = Option.none

/-- The content of claim C3 for extractors A and B and a URL they both
accept: order of registration decides the dispatch, the dispatched extractor
is always the earliest-registered accepting one, and no acceptance means no
dispatch. -/
def dispatchClaim (A B : Extractor) (u : String) : Prop :=
  get_extractor_for_url (register_extractor (register_extractor ⟨[]⟩ A) B) u = some A
  ∧ get_extractor_for_url (register_extractor (register_extractor ⟨[]⟩ B) A) u = some B
  ∧ (∀ pm : PluginManager, ∀ e, get_extractor_for_url pm u = some e →
      e.can_handle u = true ∧ ∃ pre post, pm.extractors = pre ++ e :: post ∧
        ∀ x ∈ pre, x.can_handle u = false)
  ∧ (∀ pm : PluginManager, (∀ x ∈ pm.extractors, x.can_handle u = false) →
      get_extractor_for_url pm u = Option.none)

/-- A sample extractor accepting every URL, for witness instances. -/
def extA : Extractor := ⟨"ExtractorA", fun _ => true⟩

/-- A second sample extractor accepting every URL. -/
def extB : Extractor := ⟨"ExtractorB", fun _ => true⟩

/-- The amended content of claim C8: under rotation the user-agent of the
k-th call is whatever pool element the random draw picked (no cursor is
involved), and without rotation it is always the pinned first pool entry. -/
def headersClaim (stream : ℕ → Fin USER_AGENTS.length) (k : ℕ) : Prop :=
  hget (get_headers true (stream k)) "User-Agent" = some (USER_AGENTS.get (stream k))
  ∧ hget (get_headers false (stream k)) "User-Agent" = some (USER_AGENTS.get ⟨0, by decide⟩)

/-- The content of claim C9 for a height sequence stabilizing first at
measurement `k`: the loop exits there with the page scrolled back to the top,
for every sufficient fuel, and a sequence of the shape [1000, 1000] exits
after exactly one measurement pass. -/
def scrollStable (h : ℕ → ℕ) (k : ℕ) : Prop :=
  (∀ fuel, k ≤ fuel → auto_scroll h fuel = some (k, 0))
  ∧ (∀ g : ℕ → ℕ, g 0 = 1000 → g 1 = 1000 →
      ∀ fuel, 1 ≤ fuel → auto_scroll g fuel = some (1, 0))

/-- The content of claim C1: with attempts 0 to r-2 failing and attempt r-1
succeeding with result R, `scrape` surfaces R, sleeps exactly after attempts
0..r-2 in strictly increasing order, the expected backoff delays are
non-decreasing along those sleeps, and R is tagged with the tier the
succeeding attempt actually ended in. -/
def retryClaim (m : Method) (W : TierWorld) (hasBrowser : Bool) (url : String)
    (headers antiHeaders : List (String × String)) (r : ℕ) (R : FetchResult) : Prop :=
  (scrape W hasBrowser url m headers antiHeaders r).1 = .ok R
  ∧ (scrape W hasBrowser url m headers antiHeaders r).2.2 = List.range (r - 1)
  ∧ List.Pairwise (· < ·) (scrape W hasBrowser url m headers antiHeaders r).2.2
  ∧ (∀ base : ℚ, 0 ≤ base →
      List.Pairwise (· ≤ ·)
        (((scrape W hasBrowser url m headers antiHeaders r).2.2).map (backoffDelay base)))
  ∧ ∃ t, (tier_body m W hasBrowser url (hupdate headers antiHeaders) (r - 1)).2.getLast?
        = some t
      ∧ R.method_used = tierTag t

/-- The content of claim C2: in Auto mode with the requests tier succeeding
on the first attempt, `scrape` returns that result tagged "requests", the
invocation trace is exactly one requests call, and neither the cloudscraper
tier nor the browser tier is ever invoked. -/
def autoShortCircuit (W : TierWorld) (hasBrowser : Bool) (url : String)
    (headers antiHeaders : List (String × String)) (retries : ℕ) (R : FetchResult) : Prop :=
  scrape W hasBrowser url .auto headers antiHeaders retries = (.ok R, [TierName.requests], [])
  ∧ R.method_used = "requests"
  ∧ TierName.cloudscraper ∉ (scrape W hasBrowser url .auto headers antiHeaders retries).2.1
  ∧ TierName.browser ∉ (scrape W hasBrowser url .auto headers antiHeaders retries).2.1

/-- The amended content of claim C6: when every attempt fails, `scrape`
surfaces exactly the final attempt's exception, after sleeping between all
r attempts (so earlier failures were caught, not surfaced). -/
def exhaustClaim (m : Method) (W : TierWorld) (hasBrowser : Bool) (url : String)
    (headers antiHeaders : List (String × String)) (r : ℕ) (errF : ℕ → FetchErr) : Prop :=
  (scrape W hasBrowser url m headers antiHeaders r).1 = .error (errF (r - 1))
  ∧ (scrape W hasBrowser url m headers antiHeaders r).2.2 = List.range (r - 1)

/-- The content of claim C10: the browser tier reports a hard-coded 200, the
request headers and the requested URL, while the two HTTP tiers report the
real response status, response headers and final URL. -/
def tierReportingClaim : Prop :=
  (∀ (w : ℕ → Except FetchErr String) (url : String)
      (hdrs : List (String × String)) (a : ℕ) (html : String),
      w a = .ok html →
      scrape_browser_tier true w url hdrs a =
        .ok { html := html, status_code := 200, method_used := "browser",
              headers := hdrs, url := url })
  ∧ (∀ (w : ℕ → Except FetchErr Response) (a : ℕ) (resp : Response),
      w a = .ok resp → ¬ (400 ≤ resp.status_code ∧ resp.status_code < 600) →
      scrape_requests_tier w a =
        .ok { html := resp.text, status_code := resp.status_code,
              method_used := "requests", headers := resp.headers, url := resp.url })
  ∧ (∀ (w : ℕ → Except FetchErr Response) (a : ℕ) (resp : Response),
      w a = .ok resp → ¬ (400 ≤ resp.status_code ∧ resp.status_code < 600) →
      scrape_cloudscraper_tier w a =
        .ok { html := resp.text, status_code := resp.status_code,
              method_used := "cloudscraper", headers := resp.headers, url := resp.url })

/-! ### Concrete sample data for witness instances -/

def sampleUrl : String := "http://example.com/product/123"

/-- A successful response, with a final URL differing from the request URL. -/
def okResp : Response :=
  { text := "<html>ok</html>", status_code := 200,
    headers := [("Content-Type", "text/html")], url := "http://final.example/product/123" }

/-- An HTTP 503 response. -/
def resp503 : Response :=
  { text := "Service Unavailable", status_code := 503, headers := [], url := sampleUrl }

/-- A world in which the requests tier always succeeds. -/
def Wok : TierWorld :=
  { req := fun _ => .ok okResp, cs := fun _ => .error (.netError "unused"),
    br := fun _ => .error (.browserError "unused") }

/-- A world in which the requests tier fails once and then succeeds. -/
def Wretry : TierWorld :=
  { req := fun a => if a = 0 then .error (.netError "connection reset") else .ok okResp,
    cs := fun _ => .error (.netError "unused"),
    br := fun _ => .error (.browserError "unused") }

/-- A world in which the requests tier always yields HTTP 503. -/
def W503 : TierWorld :=
  { req := fun _ => .ok resp503, cs := fun _ => .error (.netError "unused"),
    br := fun _ => .error (.browserError "unused") }

/-- Like `W503` but the first attempt fails with a connection error instead. -/
def W503head : TierWorld :=
  { req := fun a => if a = 0 then .error (.netError "connection refused") else .ok resp503,
    cs := fun _ => .error (.netError "unused"),
    br := fun _ => .error (.browserError "unused") }

/-- The result dict the requests tier builds from `okResp`. -/
def okResult : FetchResult :=
  { html := okResp.text, status_code := okResp.status_code, method_used := "requests",
    headers := okResp.headers, url := okResp.url }

/-- A browser world producing a fixed page. -/
def wBrSample : ℕ → Except FetchErr String := fun _ => .ok "<p>page</p>"

/-- Sample request headers for the browser tier witness. -/
def reqHdrs : List (String × String) := [("User-Agent", "test-agent")]

/-- The result dict the browser tier builds from `wBrSample` at `sampleUrl`. -/
def brResult : FetchResult :=
  { html := "<p>page</p>", status_code := 200, method_used := "browser",
    headers := reqHdrs, url := sampleUrl }

end WebScraper

namespace WebScraper

/-! ### Helper lemmas -/

/-- A list all of whose characters are dots never parses as a Python float. -/
theorem pyFloat_all_dots (l : List Char) (h : ∀ c ∈ l, c = '.') :
    pyFloatOfDigitsDots l = Option.none := by
  cases l with
  | nil => rfl
  | cons c cs =>
    have hc : c = '.' := h c (List.mem_cons_self c cs)
    subst hc
    cases cs with
    | nil => rfl
    | cons c2 cs2 =>
      have hc2 : c2 = '.' := h c2 (by simp)
      subst hc2
      simp [pyFloatOfDigitsDots, List.takeWhile]

/-! ### Claim C7 -/

/-- Claim C7: price normalization maps the string dollar-1,299.99 to the value
1299.99; a string containing no digit at all is normalized to `None` rather
than raising; numeric inputs pass through; `None` stays `None`. -/
theorem C7_price_normalization : priceClaim := by
  refine ⟨?_, ?_, ?_, rfl⟩
  · simp +decide [normalize_price, stripNonDigitDot, pyFloatOfDigitsDots, natOfDigits]
    norm_num
  · intro s hs
    show pyFloatOfDigitsDots (stripNonDigitDot s.toList) = Option.none
    apply pyFloat_all_dots
    intro c hc
    rcases List.mem_filter.mp hc with ⟨hmem, hp⟩
    rcases Bool.or_eq_true_iff.mp hp with hd | hdot
    · exact absurd hd (by simp [hs c hmem])
    · exact eq_of_beq hdot
  · intro q; rfl

/-- Witness for C7: the no-digit clause applied to a concrete garbage string. -/
theorem C7_price_normalization_witness :
    (∀ c ∈ "no price here!?".toList, c.isDigit = false)
    ∧ normalize_price (.str "no price here!?") = Option.none :=
  ⟨by decide, C7_price_normalization.2.1 "no price here!?" (by decide)⟩

/-! ### Claim C4 -/

/-- Claim C4 as stated is false: the rating normalizer maps the numeric input
60 (which is nonnegative) to 6, and 6 lies outside the interval [0, 5]. -/
theorem C4_rating_counterexample :
    (0 : ℚ) ≤ 60 ∧ normalize_rating (.num 60) = some 6 ∧ ¬ ((6 : ℚ) ≤ 5) := by
  refine ⟨by norm_num, by norm_num [normalize_rating], by norm_num⟩

/-- Claim C4, amended: for every numeric rating x at least 0, the normalizer
returns x divided by 10 when x exceeds 5 and x unchanged otherwise; the result
lies in [0, 5] provided x is at most 50 (not for every nonnegative x); for
strings the same rule applies to the first decimal number the rating regex
finds; `None` yields `None`. -/
theorem C4_rating_amended (q : ℚ) (hq : 0 ≤ q) : ratingClaim q := by
  refine ⟨?_, ?_, ?_, rfl⟩
  · by_cases h : 5 < q <;> simp [normalize_rating, h]
  · intro h50
    by_cases h : 5 < q
    · simp only [if_pos h]
      constructor
      · positivity
      · linarith
    · simp only [if_neg h]
      exact ⟨hq, le_of_not_lt h⟩
  · intro s v hv
    simp [normalize_rating, hv]

/-- Witness for C4: the amended claim applied at the rating 8. -/
theorem C4_rating_amended_witness : (0 : ℚ) ≤ 8 ∧ ratingClaim 8 :=
  ⟨by norm_num, C4_rating_amended 8 (by norm_num)⟩

/-! ### Claim C5 -/

/-- Claim C5 meets a code bug: the availability normalizer maps the string
"Currently unavailable" to `true`, because the positive indicator "available"
is a substring of "unavailable" and positive indicators are scanned first, so
the negative indicator "unavailable" of the source list is unreachable; and
`normalize_product` stores Python `None`, not `False`, for a record lacking
the availability field, because an absent field bypasses its normalizer.  The
remaining two literal inputs behave as claimed: "In Stock Now" gives `true`
and a literal `None` gives `false`. -/
theorem C5_availability_bug :
    normalize_availability (.str "Currently unavailable") = true
    ∧ dget (normalize_product [("title", .str "Widget")] "amazon" "2026-01-01") "availability"
        = some PyVal.none
    ∧ normalize_availability (.str "In Stock Now") = true
    ∧ normalize_availability .none = false := by
  refine ⟨by decide, by decide, by decide, rfl⟩

/-! ### Claim C3 -/

/-- A successful `find?` returns an element satisfying the predicate that is
preceded only by elements falsifying it. -/
theorem find?_first {α : Type} (p : α → Bool) :
    ∀ (l : List α) (a : α), l.find? p = some a →
      p a = true ∧ ∃ pre post, l = pre ++ a :: post ∧ ∀ x ∈ pre, p x = false := by
  intro l
  induction l with
  | nil => intro a h; simp [List.find?] at h
  | cons b bs ih =>
    intro a h
    by_cases hb : p b = true
    · rw [List.find?_cons_of_pos _ hb] at h
      obtain rfl : b = a := by injection h
      exact ⟨hb, [], bs, rfl, by simp⟩
    · rw [List.find?_cons_of_neg _ hb] at h
      obtain ⟨hpa, pre, post, rfl, hpre⟩ := ih a h
      refine ⟨hpa, b :: pre, post, rfl, ?_⟩
      intro x hx
      rcases List.mem_cons.mp hx with rfl | hx2
      · exact Bool.eq_false_iff.mpr hb
      · exact hpre x hx2

/-- Claim C3: extractor dispatch is deterministic and position-stable.
Registering A then B returns A for a URL both accept, registering B then A
returns B, the dispatched extractor is always the earliest-registered one
whose predicate accepts the URL, and dispatch yields `None` when no
registered predicate accepts the URL. -/
theorem C3_dispatch_order (A B : Extractor) (u : String)
    (hA : A.can_handle u = true) (hB : B.can_handle u = true) :
    dispatchClaim A B u := by
  refine ⟨?_, ?_, ?_, ?_⟩
  · simp [get_extractor_for_url, register_extractor, List.find?_cons, hA]
  · simp [get_extractor_for_url, register_extractor, List.find?_cons, hB]
  · intro pm e he
    obtain ⟨hpe, pre, post, heq, hpre⟩ := find?_first _ pm.extractors e he
    exact ⟨hpe, pre, post, heq, hpre⟩
  · intro pm hnone
    exact List.find?_eq_none.mpr (fun x hx => by simp [hnone x hx])

/-- Witness for C3: two always-accepting extractors over a concrete URL. -/
theorem C3_dispatch_order_witness :
    extA.can_handle "http://example.com" = true
    ∧ extB.can_handle "http://example.com" = true
    ∧ dispatchClaim extA extB "http://example.com" :=
  ⟨rfl, rfl, C3_dispatch_order extA extB "http://example.com" rfl rfl⟩

/-! ### Claim C8 -/

/-- Claim C8 as stated is false: with rotation enabled the user-agent is
`random.choice` of the pool, not a round-robin cursor, so there is a random
stream (the constant first pick) under which call 1 does not return pool
entry 1 mod 6. -/
theorem C8_rotation_counterexample :
    ¬ ∀ (stream : ℕ → Fin USER_AGENTS.length) (k : ℕ),
        hget (get_headers true (stream k)) "User-Agent"
          = some (USER_AGENTS.get ⟨k % USER_AGENTS.length, Nat.mod_lt k (by decide)⟩) := by
  intro hall
  exact absurd (hall (fun _ => ⟨0, by decide⟩) 1) (by decide)

/-- Claim C8, amended: with rotation enabled every call returns the pool
entry selected by that call's random draw (uniform choice, no rotation
cursor), and with rotation disabled every call returns the pinned first pool
entry. -/
theorem C8_headers_amended (stream : ℕ → Fin USER_AGENTS.length) (k : ℕ) :
    headersClaim stream k := by
  constructor
  · simp [headersClaim, get_headers, hget, List.find?]
  · simp [headersClaim, get_headers, hget, List.find?]

/-- Witness for C8: the amended claim at a concrete pick stream and call. -/
theorem C8_headers_amended_witness : headersClaim (fun _ => ⟨2, by decide⟩) 5 :=
  C8_headers_amended (fun _ => ⟨2, by decide⟩) 5

/-! ### Claim C9 -/

/-- The scroll loop, entered at iteration `i` with the previous measurement
`h (i-1)`, exits at the first stabilization index `k` whenever the fuel
exceeds the distance to it: the result does not depend on the bound. -/
theorem auto_scroll_loop_spec (h : ℕ → ℕ) :
    ∀ (fuel i k : ℕ), 1 ≤ i → i ≤ k → h k = h (k - 1) →
      (∀ j, i ≤ j → j < k → h j ≠ h (j - 1)) → k - i < fuel →
      auto_scroll_loop h (h (i - 1)) i fuel = some k := by
  intro fuel
  induction fuel with
  | zero => intro i k _ _ _ _ hlt; omega
  | succ f ih =>
    intro i k hi hik hstab hmin hfuel
    by_cases heq : h i = h (i - 1)
    · have hik2 : i = k := by
        by_contra hne
        exact hmin i (le_refl i) (by omega) heq
      subst hik2
      simp [auto_scroll_loop, heq]
    · have hik2 : i < k := by
        rcases eq_or_lt_of_le hik with rfl | hlt
        · exact absurd hstab heq
        · exact hlt
      have hrec := ih (i + 1) k (by omega) (by omega) hstab
        (fun j hj hjk => hmin j (by omega) hjk) (by omega)
      simpa [auto_scroll_loop, heq, Nat.succ_sub_one] using hrec

/-- Claim C9: the auto-scroll loop terminates for every height sequence that
stabilizes, exiting as soon as two consecutive measurements are equal and
then scrolling back to the top; the result is the same for every fuel bound
at least the stabilization index, so no upper iteration bound is needed; and
a [1000, 1000] sequence performs exactly one measurement pass. -/
theorem C9_auto_scroll_termination (h : ℕ → ℕ) (k : ℕ) (hk : 1 ≤ k)
    (hstab : h k = h (k - 1)) (hmin : ∀ j, 1 ≤ j → j < k → h j ≠ h (j - 1)) :
    scrollStable h k := by
  constructor
  · intro fuel hfuel
    have hspec := auto_scroll_loop_spec h fuel 1 k (le_refl 1) hk hstab
      (fun j hj hjk => hmin j hj hjk) (by omega)
    simpa [auto_scroll] using hspec
  · intro g hg0 hg1 fuel hfuel
    have hspec := auto_scroll_loop_spec g fuel 1 1 (le_refl 1) (le_refl 1)
      (hg1.trans hg0.symm)
      (fun j hj hjk => absurd (hj.trans_lt hjk) (lt_irrefl 1)) (by omega)
    simpa [auto_scroll] using hspec

/-- Witness for C9: the constant height sequence 1000 stabilizes at the very
first loop measurement. -/
theorem C9_auto_scroll_termination_witness :
    1 ≤ 1 ∧ scrollStable (fun _ => 1000) 1 :=
  ⟨le_refl 1,
   C9_auto_scroll_termination (fun _ => 1000) 1 (le_refl 1) rfl
     (fun _ hj hjk => absurd (hj.trans_lt hjk) (lt_irrefl 1))⟩

/-! ### Scraper helper lemmas -/

/-- A successful requests-tier call tags its result "requests". -/
theorem scrape_requests_tier_tag (w : ℕ → Except FetchErr Response) (a : ℕ)
    (R : FetchResult) (h : scrape_requests_tier w a = .ok R) :
    R.method_used = "requests" := by
  cases hw : w a with
  | error e => simp [scrape_requests_tier, hw] at h
  | ok resp =>
    cases hr : raise_for_status resp with
    | error e => simp [scrape_requests_tier, hw, hr] at h
    | ok resp2 =>
      simp [scrape_requests_tier, hw, hr] at h
      rw [← h]

/-- A successful cloudscraper-tier call tags its result "cloudscraper". -/
theorem scrape_cloudscraper_tier_tag (w : ℕ → Except FetchErr Response) (a : ℕ)
    (R : FetchResult) (h : scrape_cloudscraper_tier w a = .ok R) :
    R.method_used = "cloudscraper" := by
  cases hw : w a with
  | error e => simp [scrape_cloudscraper_tier, hw] at h
  | ok resp =>
    cases hr : raise_for_status resp with
    | error e => simp [scrape_cloudscraper_tier, hw, hr] at h
    | ok resp2 =>
      simp [scrape_cloudscraper_tier, hw, hr] at h
      rw [← h]

/-- A successful browser-tier call tags its result "browser". -/
theorem scrape_browser_tier_tag (hb : Bool) (w : ℕ → Except FetchErr String)
    (url : String) (hdrs : List (String × String)) (a : ℕ) (R : FetchResult)
    (h : scrape_browser_tier hb w url hdrs a = .ok R) :
    R.method_used = "browser" := by
  cases hb with
  | false => simp [scrape_browser_tier] at h
  | true =>
    cases hw : w a with
    | error e => simp [scrape_browser_tier, hw] at h
    | ok html =>
      simp [scrape_browser_tier, hw] at h
      rw [← h]

/-- A successful Auto-mode body ends in a tier whose tag names the result. -/
theorem scrape_auto_tag (W : TierWorld) (hasBrowser : Bool) (url : String)
    (hdrs : List (String × String)) (a : ℕ) (R : FetchResult)
    (h : (scrape_auto W hasBrowser url hdrs a).1 = .ok R) :
    ∃ t, (scrape_auto W hasBrowser url hdrs a).2.getLast? = some t
      ∧ R.method_used = tierTag t := by
  unfold scrape_auto at h ⊢
  cases hreq : scrape_requests_tier W.req a with
  | ok r =>
    simp only [hreq] at h ⊢
    simp at h
    subst h
    exact ⟨.requests, rfl, scrape_requests_tier_tag W.req a r hreq⟩
  | error e1 =>
    simp only [hreq] at h ⊢
    cases hcs : scrape_cloudscraper_tier W.cs a with
    | ok r =>
      simp only [hcs] at h ⊢
      simp at h
      subst h
      exact ⟨.cloudscraper, rfl, scrape_cloudscraper_tier_tag W.cs a r hcs⟩
    | error e2 =>
      simp only [hcs] at h ⊢
      cases hasBrowser with
      | false => simp at h
      | true =>
        simp only [if_pos trivial, reduceIte] at h ⊢
        exact ⟨.browser, rfl, scrape_browser_tier_tag true W.br url hdrs a R h⟩

/-- A successful body run, whatever the method, ends in a tier whose tag names
the result; an unknown method never succeeds. -/
theorem tier_body_ok_tag (m : Method) (W : TierWorld) (hasBrowser : Bool)
    (url : String) (hdrs : List (String × String)) (a : ℕ) (R : FetchResult)
    (h : (tier_body m W hasBrowser url hdrs a).1 = .ok R) :
    ∃ t, (tier_body m W hasBrowser url hdrs a).2.getLast? = some t
      ∧ R.method_used = tierTag t := by
  cases m with
  | auto => exact scrape_auto_tag W hasBrowser url hdrs a R h
  | requests => exact ⟨.requests, rfl, scrape_requests_tier_tag W.req a R h⟩
  | cloudscraper => exact ⟨.cloudscraper, rfl, scrape_cloudscraper_tier_tag W.cs a R h⟩
  | browser => exact ⟨.browser, rfl, scrape_browser_tier_tag hasBrowser W.br url hdrs a R h⟩
  | other s => simp [tier_body] at h

/-- One-step unfolding of `scrape_go` at nonzero fuel. -/
theorem scrape_go_step (body : ℕ → Except FetchErr FetchResult × List TierName)
    (url : String) (retries a rem : ℕ) :
    scrape_go body url retries a (rem + 1)
      = match body a with
        | (.ok r, tr) => (.ok r, tr, [])
        | (.error e, tr) =>
          match rem with
          | 0 => (.error e, tr, [])
          | _ + 1 =>
            ((scrape_go body url retries (a + 1) rem).1,
             tr ++ (scrape_go body url retries (a + 1) rem).2.1,
             a :: (scrape_go body url retries (a + 1) rem).2.2) := rfl

/-- Retry-loop invariant, success form: if the body fails on the `n` attempts
starting at `a` and succeeds on attempt `a + n`, the loop surfaces that
success and sleeps exactly after attempts `a, a+1, ..., a+n-1`. -/
theorem scrape_go_succ (body : ℕ → Except FetchErr FetchResult × List TierName)
    (url : String) (retries : ℕ) :
    ∀ (n a : ℕ) (R : FetchResult),
      (∀ k, k < n → ∃ e, (body (a + k)).1 = Except.error e) →
      (body (a + n)).1 = Except.ok R →
      (scrape_go body url retries a (n + 1)).1 = Except.ok R
      ∧ (scrape_go body url retries a (n + 1)).2.2 = List.range' a n := by
  intro n
  induction n with
  | zero =>
    intro a R _ hs
    rw [Nat.add_zero] at hs
    rcases hbody : body a with ⟨res, tr⟩
    rw [hbody] at hs
    simp at hs
    subst hs
    simp [scrape_go, hbody]
  | succ n ih =>
    intro a R hf hs
    obtain ⟨e, he⟩ := hf 0 (Nat.succ_pos n)
    rw [Nat.add_zero] at he
    rcases hbody : body a with ⟨res, tr⟩
    rw [hbody] at he
    simp at he
    subst he
    have hf2 : ∀ k, k < n → ∃ e2, (body (a + 1 + k)).1 = Except.error e2 := by
      intro k hk
      have hk2 := hf (k + 1) (by omega)
      rwa [show a + (k + 1) = a + 1 + k by omega] at hk2
    have hs2 : (body (a + 1 + n)).1 = Except.ok R := by
      rwa [show a + (n + 1) = a + 1 + n by omega] at hs
    obtain ⟨ih1, ih2⟩ := ih (a + 1) R hf2 hs2
    have hstep : scrape_go body url retries a (n + 1 + 1)
        = ((scrape_go body url retries (a + 1) (n + 1)).1,
           tr ++ (scrape_go body url retries (a + 1) (n + 1)).2.1,
           a :: (scrape_go body url retries (a + 1) (n + 1)).2.2) := by
      rw [scrape_go_step, hbody]
    rw [hstep]
    refine ⟨ih1, ?_⟩
    show a :: (scrape_go body url retries (a + 1) (n + 1)).2.2 = List.range' a (n + 1)
    rw [ih2, List.range'_succ]

/-- Retry-loop invariant, exhaustion form: if the body fails on every one of
the `n + 1` attempts starting at `a`, the loop surfaces the error of the last
attempt `a + n` and sleeps after every attempt but the last. -/
theorem scrape_go_fail (body : ℕ → Except FetchErr FetchResult × List TierName)
    (url : String) (retries : ℕ) :
    ∀ (n a : ℕ) (errF : ℕ → FetchErr),
      (∀ k, k ≤ n → (body (a + k)).1 = Except.error (errF (a + k))) →
      (scrape_go body url retries a (n + 1)).1 = Except.error (errF (a + n))
      ∧ (scrape_go body url retries a (n + 1)).2.2 = List.range' a n := by
  intro n
  induction n with
  | zero =>
    intro a errF hf
    have he := hf 0 (le_refl 0)
    rw [Nat.add_zero] at he
    rcases hbody : body a with ⟨res, tr⟩
    rw [hbody] at he
    simp at he
    subst he
    simp [scrape_go, hbody]
  | succ n ih =>
    intro a errF hf
    have he := hf 0 (Nat.zero_le _)
    rw [Nat.add_zero] at he
    rcases hbody : body a with ⟨res, tr⟩
    rw [hbody] at he
    simp at he
    subst he
    have hf2 : ∀ k, k ≤ n → (body (a + 1 + k)).1 = Except.error (errF (a + 1 + k)) := by
      intro k hk
      have hk2 := hf (k + 1) (by omega)
      rwa [show a + (k + 1) = a + 1 + k by omega] at hk2
    obtain ⟨ih1, ih2⟩ := ih (a + 1) errF hf2
    have hstep : scrape_go body url retries a (n + 1 + 1)
        = ((scrape_go body url retries (a + 1) (n + 1)).1,
           tr ++ (scrape_go body url retries (a + 1) (n + 1)).2.1,
           a :: (scrape_go body url retries (a + 1) (n + 1)).2.2) := by
      rw [scrape_go_step, hbody]
    rw [hstep]
    constructor
    · rw [show a + (n + 1) = a + 1 + n by omega]
      exact ih1
    · show a :: (scrape_go body url retries (a + 1) (n + 1)).2.2 = List.range' a (n + 1)
      rw [ih2, List.range'_succ]

/-! ### Claim C1 -/

/-- Claim C1: for every retry budget r at least 1 and every behaviour where
the first r-1 attempts raise and attempt r succeeds, `scrape` returns that
attempt's result tagged with the tier that produced it, and sleeps exactly
r-1 times with the strictly increasing attempt indices 0..r-2, giving
non-decreasing expected backoff delays. -/
theorem C1_retry_backoff (m : Method) (W : TierWorld) (hasBrowser : Bool)
    (url : String) (headers antiHeaders : List (String × String)) (r : ℕ)
    (R : FetchResult) (hr : 1 ≤ r)
    (hfail : ∀ a, a < r - 1 →
      ∃ e, (tier_body m W hasBrowser url (hupdate headers antiHeaders) a).1
        = Except.error e)
    (hsucc : (tier_body m W hasBrowser url (hupdate headers antiHeaders) (r - 1)).1
      = Except.ok R) :
    retryClaim m W hasBrowser url headers antiHeaders r R := by
  obtain ⟨n, rfl⟩ : ∃ n, r = n + 1 := ⟨r - 1, by omega⟩
  rw [Nat.add_sub_cancel] at hfail hsucc
  obtain ⟨h1, h2⟩ := scrape_go_succ
    (tier_body m W hasBrowser url (hupdate headers antiHeaders)) url (n + 1) n 0 R
    (by simpa using hfail) (by simpa using hsucc)
  have hsl : (scrape W hasBrowser url m headers antiHeaders (n + 1)).2.2
      = List.range n := by
    rw [List.range_eq_range']
    exact h2
  refine ⟨h1, ?_, ?_, ?_, ?_⟩
  · rw [Nat.add_sub_cancel]
    exact hsl
  · rw [hsl]
    exact List.pairwise_lt_range n
  · intro base hbase
    rw [hsl]
    refine List.Pairwise.map (backoffDelay base) ?_ (List.pairwise_lt_range n)
    intro x y hxy
    unfold backoffDelay
    exact mul_le_mul_of_nonneg_left
      (pow_le_pow_right₀ (by norm_num) (le_of_lt hxy)) hbase
  · rw [Nat.add_sub_cancel]
    exact tier_body_ok_tag m W hasBrowser url (hupdate headers antiHeaders) n R hsucc

/-- Witness for C1: requests pinned, one connection failure, then success. -/
theorem C1_retry_backoff_witness :
    1 ≤ 2 ∧ retryClaim .requests Wretry false sampleUrl [] [] 2 okResult :=
  ⟨by omega,
   C1_retry_backoff .requests Wretry false sampleUrl [] [] 2 okResult (by omega)
     (fun a ha => ⟨.netError "connection reset", by
        have ha0 : a = 0 := by omega
        subst ha0
        rfl⟩)
     rfl⟩

/-! ### Claim C2 -/

/-- Claim C2: in Auto mode, when the plain-HTTP requests tier succeeds on the
first attempt, `scrape` returns its result tagged "requests" with no sleeps,
and the cloudscraper and browser tiers are never invoked. -/
theorem C2_auto_short_circuit (W : TierWorld) (hasBrowser : Bool) (url : String)
    (headers antiHeaders : List (String × String)) (retries : ℕ) (R : FetchResult)
    (hr : 1 ≤ retries)
    (hreq : scrape_requests_tier W.req 0 = Except.ok R) :
    autoShortCircuit W hasBrowser url headers antiHeaders retries R := by
  obtain ⟨n, rfl⟩ : ∃ n, retries = n + 1 := ⟨retries - 1, by omega⟩
  have hbody : tier_body .auto W hasBrowser url (hupdate headers antiHeaders) 0
      = (.ok R, [TierName.requests]) := by
    simp [tier_body, scrape_auto, hreq]
  have hfull : scrape W hasBrowser url .auto headers antiHeaders (n + 1)
      = (.ok R, [TierName.requests], []) := by
    simp [scrape, scrape_loop, scrape_go, hbody]
  refine ⟨hfull, scrape_requests_tier_tag W.req 0 R hreq, ?_, ?_⟩
  · rw [hfull]
    simp
  · rw [hfull]
    simp

/-- Witness for C2: a world whose requests tier always succeeds. -/
theorem C2_auto_short_circuit_witness :
    1 ≤ 3 ∧ autoShortCircuit Wok false sampleUrl [] [] 3 okResult :=
  ⟨by omega, C2_auto_short_circuit Wok false sampleUrl [] [] 3 okResult (by omega) rfl⟩

/-! ### Claim C6 -/

/-- Claim C6 as stated is false: the error surfaced after exhaustion is the
bare exception of the final attempt, not an aggregate carrying a per-attempt
log.  Two 3-attempt runs that differ in the error of attempt 0 (HTTP 503
everywhere versus a connection error first) surface the very same error, so
the surfaced error cannot record what every attempt did; it is the single
final HTTPError 503. -/
theorem C6_exhaust_counterexample :
    (scrape W503 false sampleUrl .requests [] [] 3).1
      = (scrape W503head false sampleUrl .requests [] [] 3).1
    ∧ (scrape W503 false sampleUrl .requests [] [] 3).1
      = Except.error (FetchErr.httpStatus 503)
    ∧ (tier_body .requests W503 false sampleUrl (hupdate [] []) 0).1
      ≠ (tier_body .requests W503head false sampleUrl (hupdate [] []) 0).1 := by
  refine ⟨by decide, by decide, by decide⟩

/-- Claim C6, amended: when every attempt of `scrape` fails, the call
re-raises exactly the final attempt's exception, after all r attempts ran
(r-1 backoff sleeps); failures of non-final attempts are caught and never
surfaced, but no aggregated per-attempt log is carried. -/
theorem C6_exhaust_amended (m : Method) (W : TierWorld) (hasBrowser : Bool)
    (url : String) (headers antiHeaders : List (String × String)) (r : ℕ)
    (errF : ℕ → FetchErr) (hr : 1 ≤ r)
    (hfail : ∀ a, a < r →
      (tier_body m W hasBrowser url (hupdate headers antiHeaders) a).1
        = Except.error (errF a)) :
    exhaustClaim m W hasBrowser url headers antiHeaders r errF := by
  obtain ⟨n, rfl⟩ : ∃ n, r = n + 1 := ⟨r - 1, by omega⟩
  obtain ⟨h1, h2⟩ := scrape_go_fail
    (tier_body m W hasBrowser url (hupdate headers antiHeaders)) url (n + 1) n 0 errF
    (by intro k hk; simpa using hfail k (by omega))
  constructor
  · rw [Nat.add_sub_cancel]
    simpa using h1
  · rw [Nat.add_sub_cancel, List.range_eq_range']
    exact h2

/-- Witness for C6: the requests tier yields HTTP 503 on all three attempts. -/
theorem C6_exhaust_amended_witness :
    1 ≤ 3 ∧ exhaustClaim .requests W503 false sampleUrl [] [] 3
      (fun _ => FetchErr.httpStatus 503) :=
  ⟨by omega,
   C6_exhaust_amended .requests W503 false sampleUrl [] [] 3 _ (by omega)
     (fun a _ => rfl)⟩

/-! ### Claim C10 -/

/-- Claim C10: a successful browser-tier fetch always reports status 200, the
request headers that were sent and the requested URL, whatever the browser
observed; the requests and cloudscraper tiers report the real response
status, the response headers and the final response URL. -/
theorem C10_tier_reporting : tierReportingClaim := by
  refine ⟨?_, ?_, ?_⟩
  · intro w url hdrs a html hw
    simp [scrape_browser_tier, hw]
  · intro w a resp hw hs
    simp [scrape_requests_tier, hw, raise_for_status, hs]
  · intro w a resp hw hs
    simp [scrape_cloudscraper_tier, hw, raise_for_status, hs]

/-- Witness for C10: the browser clause at a concrete page and the requests
clause at a concrete 200 response. -/
theorem C10_tier_reporting_witness :
    wBrSample 0 = Except.ok "<p>page</p>"
    ∧ scrape_browser_tier true wBrSample sampleUrl reqHdrs 0 = Except.ok brResult
    ∧ Wok.req 0 = Except.ok okResp
    ∧ ¬ (400 ≤ okResp.status_code ∧ okResp.status_code < 600)
    ∧ scrape_requests_tier Wok.req 0 = Except.ok okResult :=
  ⟨rfl,
   C10_tier_reporting.1 wBrSample sampleUrl reqHdrs 0 "<p>page</p>" rfl,
   rfl,
   by decide,
   C10_tier_reporting.2.1 Wok.req 0 okResp rfl (by decide)⟩

end WebScraper
